import Mathlib

/-!
Shallow embedding of the scanner-hit ledger subsystem of
`StockStuff.py` (momentum-stock-screener), covering:

* the classifier functions `get_market_session`, `categorize_price`,
  `categorize_volume_spike`, `get_trigger_description`,
  `calculate_signal_strength`, `assess_risk_level`;
* hit construction and day-document mutation (`log_scanner_hit`,
  `update_daily_summary`) with explicit state passing;
* the relational mirror (`save_hit_to_database`, `query_historical_data`);
* the rollover/archival pipeline (`archive_daily_logs`,
  `create_permanent_backup`, `save_daily_summary_to_db`);
* the HTTP entry point `log_hit`.

Modelling conventions:

* Python numbers (floats in the source) are modelled as `ℚ`; counters as `ℕ`.
* JSON/dict values that may be `None` are `Option _`.  Python truthiness on
  numbers (`if price:` is false for both `None` and `0`) is `truthyQ`;
  Python's `x or d` on numbers is `pyOr`.
* A raised exception that aborts an operation before its write is modelled
  by `Option.none` / an unchanged state.
* Python's `round(x, 2)` (round half to even, idealised from binary floats
  to exact rationals) is `round2`.
* Calendar dates are modelled as day numbers (`ℕ`); `strptime` of a
  well-formed archive filename yields the file's day number, a malformed
  filename yields the `malformed` key (the `ValueError` branch).
-/

/-- Python truthiness of a possibly-absent number: `None` and `0` are falsy. -/
def truthyQ : Option ℚ → Bool
  | none => false
  | some x => x != 0

/-- Python `x or d` for a possibly-absent number `x`. -/
def pyOr (x : Option ℚ) (d : ℚ) : ℚ :=
  match x with
  | none => d
  | some v => if v = 0 then d else v

/-- Round a rational to the nearest integer, half to even (Python `round`). -/
def roundHalfEven (q : ℚ) : ℤ :=
  let n := ⌊q⌋
  let r := q - n
  if r < 1/2 then n
  else if r > 1/2 then n + 1
  else if 2 ∣ n then n else n + 1

/-- Python `round(x, 2)`: round half to even at two decimal places
(`mkRat n 100` is the rational `n/100`). -/
def round2 (q : ℚ) : ℚ := mkRat (roundHalfEven (q * 100)) 100

/-- Python `str.upper()` (ASCII tickers in this system). -/
def pyUpper (s : String) : String := s.map Char.toUpper

/-- The `trigger_data` dict built by the `/log-hit` route: every key is
present, each value possibly `None`. -/
structure TriggerData where
  trigger_type : String
  price : Option ℚ
  change_pct : Option ℚ
  volume : Option ℤ
  rel_volume : Option ℚ
  breakout_detected : Bool
  news_detected : Bool
  momentum_score : Option ℚ
  deriving Repr, DecidableEq

/-- Source `get_market_session(dt)`: hour-of-day buckets. -/
def get_market_session (hour : ℕ) : String :=
  if 9 ≤ hour ∧ hour < 16 then "regular_hours"
  else if 4 ≤ hour ∧ hour < 9 then "pre_market"
  else if 16 ≤ hour ∧ hour ≤ 20 then "after_hours"
  else "overnight"

/-- Source `categorize_price(price)`; `if not price` catches both `None` and `0`. -/
def categorize_price (price : Option ℚ) : String :=
  if !truthyQ price then "unknown"
  else
    let p := price.getD 0
    if p < 5 then "penny_stock"
    else if p < 10 then "low_priced"
    else if p < 15 then "mid_priced"
    else "higher_priced"

/-- Source `categorize_volume_spike(rel_volume)`; `if not rel_volume` catches
`None` and `0`. -/
def categorize_volume_spike (rel_volume : Option ℚ) : String :=
  if !truthyQ rel_volume then "normal"
  else
    let v := rel_volume.getD 0
    if v ≥ 50 then "extreme_spike"
    else if v ≥ 20 then "massive_spike"
    else if v ≥ 10 then "high_spike"
    else if v ≥ 5 then "moderate_spike"
    else "normal_volume"

/-- Source `get_trigger_description(trigger_type)`: static lookup with default. -/
def get_trigger_description (trigger_type : String) : String :=
  if trigger_type = "minute_breakout" then "5%+ price move within 1 minute timeframe"
  else if trigger_type = "breaking_news" then "Recent news mention in last 2 hours"
  else if trigger_type = "volume_spike" then "10x+ volume explosion without news/breakout"
  else if trigger_type = "breakout_and_news" then "Both rapid price move AND breaking news"
  else "Unknown trigger type"

/-- Source `calculate_signal_strength(trigger_data)`.  The keys are always present
in the dict built by `/log-hit`, so `trigger_data.get("change_pct", 0)`
returns the stored value even when it is `None`; `abs(None)` and
`None >= 50` then raise `TypeError`, modelled by `none`. -/
def calculate_signal_strength (td : TriggerData) : Option ℤ := do
  let c ← td.change_pct
  let change_pct := |c|
  let rel_volume ← td.rel_volume
  let score : ℤ := 5
  let score := if change_pct ≥ 15 then score + 2
               else if change_pct ≥ 10 then score + 1
               else score
  let score := if rel_volume ≥ 50 then score + 2
               else if rel_volume ≥ 20 then score + 1
               else score
  let score := if td.breakout_detected && td.news_detected then score + 1 else score
  return min 10 (max 1 score)

/-- Source `assess_risk_level(price, change_pct, rel_volume)`. -/
def assess_risk_level (price change_pct rel_volume : Option ℚ) : String :=
  if !truthyQ price then "unknown"
  else
    let p := price.getD 0
    let c := |pyOr change_pct 0|
    let v := pyOr rel_volume 1
    if p < 5 ∧ c > 20 then "very_high"
    else if p < 5 ∨ c > 15 then "high"
    else if c > 10 ∨ v > 25 then "moderate"
    else "low"

/-- The four fixed trigger-type histogram buckets of `daily_summary`. -/
structure TriggerTypes where
  minute_breakout : ℕ
  breaking_news : ℕ
  volume_spike : ℕ
  breakout_and_news : ℕ
  deriving Repr, DecidableEq

/-- The four fixed price-range buckets; field `under_5` is JSON key
`"under_5"`, `r5_to_10` is `"5_to_10"`, and so on. -/
structure PriceRanges where
  under_5 : ℕ
  r5_to_10 : ℕ
  r10_to_15 : ℕ
  r15_to_20 : ℕ
  deriving Repr, DecidableEq

/-- The `performance_metrics` sub-object of `daily_summary`. -/
structure PerformanceMetrics where
  avg_change_pct : ℚ
  max_change_pct : ℚ
  avg_volume_spike : ℚ
  max_volume_spike : ℚ
  deriving Repr, DecidableEq

/-- The `daily_summary` object of a day's ledger document. -/
structure DailySummary where
  total_hits : ℕ
  unique_tickers : List String
  trigger_types : TriggerTypes
  price_ranges : PriceRanges
  performance_metrics : PerformanceMetrics
  deriving Repr, DecidableEq

/-- The `stock_data` sub-object of a hit entry. -/
structure StockData where
  ticker : String
  price : Option ℚ
  price_change_pct : Option ℚ
  price_category : String
  volume : Option ℤ
  relative_volume : Option ℚ
  volume_category : String
  momentum_score : Option ℚ
  deriving Repr, DecidableEq

/-- The `trigger_analysis` sub-object of a hit entry. -/
structure TriggerAnalysis where
  primary_trigger : String
  trigger_description : String
  breakout_detected : Bool
  news_detected : Bool
  signal_strength : ℤ
  risk_level : String
  deriving Repr, DecidableEq

/-- One element of the `scanner_hits` array (the constant `context`
sub-object is carried as the fixed string `scanner_criteria_str` when the
row is flattened into the database). -/
structure HitEntry where
  hit_id : ℕ
  timestamp : String
  time_readable : String
  market_session : String
  stock_data : StockData
  trigger_analysis : TriggerAnalysis
  deriving Repr, DecidableEq

/-- A day's ledger document (the constant `log_metadata` object carries no
state and is omitted). -/
structure LogsDoc where
  daily_summary : DailySummary
  scanner_hits : List HitEntry
  deriving Repr, DecidableEq

/-- The fresh document created on the first hit of a new day: every counter
and metric zero, no hits. -/
def initial_logs : LogsDoc :=
  { daily_summary :=
      { total_hits := 0
        unique_tickers := []
        trigger_types := ⟨0, 0, 0, 0⟩
        price_ranges := ⟨0, 0, 0, 0⟩
        performance_metrics := ⟨0, 0, 0, 0⟩ }
    scanner_hits := [] }

/-- Source `update_daily_summary(logs, hit_entry)`, state-passing form: returns the
document with its `daily_summary` updated for the freshly appended hit. -/
def update_daily_summary (logs : LogsDoc) (hit : HitEntry) : LogsDoc :=
  let summary := logs.daily_summary
  let sd := hit.stock_data
  let ta := hit.trigger_analysis
  let summary := { summary with total_hits := summary.total_hits + 1 }
  let summary :=
    if sd.ticker ∈ summary.unique_tickers then summary
    else { summary with unique_tickers := summary.unique_tickers ++ [sd.ticker] }
  let tt := summary.trigger_types
  let tt :=
    if ta.primary_trigger = "minute_breakout" then
      { tt with minute_breakout := tt.minute_breakout + 1 }
    else if ta.primary_trigger = "breaking_news" then
      { tt with breaking_news := tt.breaking_news + 1 }
    else if ta.primary_trigger = "volume_spike" then
      { tt with volume_spike := tt.volume_spike + 1 }
    else if ta.primary_trigger = "breakout_and_news" then
      { tt with breakout_and_news := tt.breakout_and_news + 1 }
    else tt
  let summary := { summary with trigger_types := tt }
  let pr := summary.price_ranges
  let pr :=
    if truthyQ sd.price then
      let p := sd.price.getD 0
      if p < 5 then { pr with under_5 := pr.under_5 + 1 }
      else if p < 10 then { pr with r5_to_10 := pr.r5_to_10 + 1 }
      else if p < 15 then { pr with r10_to_15 := pr.r10_to_15 + 1 }
      else { pr with r15_to_20 := pr.r15_to_20 + 1 }
    else pr
  let summary := { summary with price_ranges := pr }
  let pm := summary.performance_metrics
  let pm :=
    match sd.price_change_pct with
    | none => pm
    | some c =>
      { pm with
          avg_change_pct := (pm.avg_change_pct + |c|) / 2
          max_change_pct := max pm.max_change_pct |c| }
  let pm :=
    match sd.relative_volume with
    | none => pm
    | some v =>
      { pm with
          avg_volume_spike := (pm.avg_volume_spike + v) / 2
          max_volume_spike := max pm.max_volume_spike v }
  let summary := { summary with performance_metrics := pm }
  { logs with daily_summary := summary }

/-- The components of `datetime.now()` that the ledger pipeline reads. -/
structure Now where
  iso : String
  readable : String
  hour : ℕ
  deriving Repr, DecidableEq

/-- The constant `context.scanner_criteria` string of every hit entry. -/
def scanner_criteria_str : String :=
  "$2-$20 range, 5%+ minute moves OR breaking news, 10x+ volume"

/-- One row of the `scanner_hits` table, columns as in the `INSERT` of
`save_hit_to_database` (booleans stored as 0/1). -/
structure DBRow where
  hit_id : ℕ
  date : String
  timestamp : String
  time_readable : String
  market_session : String
  ticker : String
  price : Option ℚ
  price_change_pct : Option ℚ
  price_category : String
  volume : Option ℤ
  relative_volume : Option ℚ
  volume_category : String
  momentum_score : Option ℚ
  primary_trigger : String
  trigger_description : String
  breakout_detected : ℕ
  news_detected : ℕ
  signal_strength : ℤ
  risk_level : String
  scanner_criteria : String
  deriving Repr, DecidableEq

/-- Source `save_hit_to_database(hit_entry)`: append one flattened row
(`date` is `timestamp[:10]`). -/
def save_hit_to_database (hit : HitEntry) (db : List DBRow) : List DBRow :=
  db ++ [{
    hit_id := hit.hit_id
    date := hit.timestamp.take 10
    timestamp := hit.timestamp
    time_readable := hit.time_readable
    market_session := hit.market_session
    ticker := hit.stock_data.ticker
    price := hit.stock_data.price
    price_change_pct := hit.stock_data.price_change_pct
    price_category := hit.stock_data.price_category
    volume := hit.stock_data.volume
    relative_volume := hit.stock_data.relative_volume
    volume_category := hit.stock_data.volume_category
    momentum_score := hit.stock_data.momentum_score
    primary_trigger := hit.trigger_analysis.primary_trigger
    trigger_description := hit.trigger_analysis.trigger_description
    breakout_detected := if hit.trigger_analysis.breakout_detected then 1 else 0
    news_detected := if hit.trigger_analysis.news_detected then 1 else 0
    signal_strength := hit.trigger_analysis.signal_strength
    risk_level := hit.trigger_analysis.risk_level
    scanner_criteria := scanner_criteria_str }]

/-- The mutable state the logging path touches: today's ledger document
(`none` when no file exists yet) and the `scanner_hits` table. -/
structure ScannerState where
  ledger : Option LogsDoc
  db : List DBRow
  deriving Repr, DecidableEq

/-- Source `log_scanner_hit(ticker, trigger_data)`.  Loads (or freshly creates)
today's document, builds the enriched hit entry, appends it, updates the
summary, writes the document back and mirrors the row into the database.
A `TypeError` raised while computing `signal_strength` (absent
`change_pct`/`rel_volume`) aborts before any write: the handler returns
`False` and the state is unchanged. -/
def log_scanner_hit (now : Now) (ticker : String) (td : TriggerData)
    (st : ScannerState) : Bool × ScannerState :=
  let logs := st.ledger.getD initial_logs
  let price := td.price
  let change_pct := td.change_pct
  let rel_volume := td.rel_volume
  let trigger_type := td.trigger_type
  match calculate_signal_strength td with
  | none => (false, st)
  | some sig =>
    let hit : HitEntry :=
      { hit_id := logs.scanner_hits.length + 1
        timestamp := now.iso
        time_readable := now.readable
        market_session := get_market_session now.hour
        stock_data :=
          { ticker := pyUpper ticker
            price := if truthyQ price then some (round2 (price.getD 0)) else none
            price_change_pct :=
              if truthyQ change_pct then some (round2 (change_pct.getD 0)) else none
            price_category := categorize_price price
            volume := td.volume
            relative_volume :=
              if truthyQ rel_volume then some (round2 (rel_volume.getD 0)) else none
            volume_category := categorize_volume_spike rel_volume
            momentum_score := td.momentum_score }
        trigger_analysis :=
          { primary_trigger := trigger_type
            trigger_description := get_trigger_description trigger_type
            breakout_detected := td.breakout_detected
            news_detected := td.news_detected
            signal_strength := sig
            risk_level := assess_risk_level price change_pct rel_volume } }
    let logs := { logs with scanner_hits := logs.scanner_hits ++ [hit] }
    let logs := update_daily_summary logs hit
    (true, { ledger := some logs, db := save_hit_to_database hit st.db })

/-- Python truthiness of a possibly-absent string: `None` and `""` are falsy. -/
def truthyS : Option String → Bool
  | none => false
  | some s => !s.isEmpty

/-- The JSON body accepted by the `/log-hit` route; every field optional. -/
structure LogHitRequest where
  ticker : Option String
  trigger_type : Option String
  price : Option ℚ
  change_pct : Option ℚ
  volume : Option ℤ
  rel_volume : Option ℚ
  breakout_detected : Option Bool
  news_detected : Option Bool
  momentum_score : Option ℚ
  deriving Repr, DecidableEq

/-- The `/log-hit` route handler `log_hit`: returns the HTTP status code and
the resulting state (`none` request models a missing/unparseable body). -/
def log_hit (req : Option LogHitRequest) (now : Now) (st : ScannerState) :
    ℕ × ScannerState :=
  match req with
  | none => (400, st)
  | some data =>
    if !truthyS data.ticker then (400, st)
    else
      let ticker := pyUpper (data.ticker.getD "")
      let td : TriggerData :=
        { trigger_type := data.trigger_type.getD "unknown"
          price := data.price
          change_pct := data.change_pct
          volume := data.volume
          rel_volume := data.rel_volume
          breakout_detected := data.breakout_detected.getD false
          news_detected := data.news_detected.getD false
          momentum_score := data.momentum_score }
      let res := log_scanner_hit now ticker td st
      if res.1 then (200, res.2) else (500, res.2)

/-- Association-list lookup (first match wins), modelling a keyed file in a
directory or a keyed row in a table. -/
def alookup {α β : Type} [DecidableEq α] (k : α) : List (α × β) → Option β
  | [] => none
  | (k', v) :: rest => if k = k' then some v else alookup k rest

/-- Remove every entry with the given key. -/
def aerase {α β : Type} [DecidableEq α] (k : α) (l : List (α × β)) : List (α × β) :=
  l.filter (fun p => p.1 ≠ k)

/-- Insert-or-replace an entry (`os.rename` over an existing target,
`shutil.copy2` over an existing file, SQL `INSERT OR REPLACE`). -/
def aupsert {α β : Type} [DecidableEq α] (k : α) (v : β) (l : List (α × β)) :
    List (α × β) :=
  aerase k l ++ [(k, v)]

/-- A filename `scanner_hits_<...>.json` in the archive directory:
`dated d` when `strptime(<...>, "%Y-%m-%d")` succeeds (the date modelled as
its day number), `malformed s` when it raises `ValueError`. -/
inductive ArchKey where
  | dated : ℕ → ArchKey
  | malformed : String → ArchKey
  deriving Repr, DecidableEq

/-- One row of the `daily_summaries` table (`unique_tickers` is stored as a
count, the histograms/metrics as JSON blobs). -/
structure DBSummaryRow where
  total_hits : ℕ
  unique_tickers : ℕ
  trigger_types : TriggerTypes
  price_ranges : PriceRanges
  performance_metrics : PerformanceMetrics
  deriving Repr, DecidableEq

/-- Flatten a `daily_summary` object into its `daily_summaries` row. -/
def summary_row (s : DailySummary) : DBSummaryRow :=
  { total_hits := s.total_hits
    unique_tickers := s.unique_tickers.length
    trigger_types := s.trigger_types
    price_ranges := s.price_ranges
    performance_metrics := s.performance_metrics }

/-- Source `save_daily_summary_to_db(date, summary)`: `INSERT OR REPLACE` keyed by
date. -/
def save_daily_summary_to_db (date : ℕ) (s : DailySummary)
    (t : List (ℕ × DBSummaryRow)) : List (ℕ × DBSummaryRow) :=
  aupsert date (summary_row s) t

/-- The file-system and summary-table state that the rollover pipeline
touches: the active ledger directory, the archive directory, the permanent
backup directory (files keyed by `(date, unix timestamp)` from the backup
filename `scanner_hits_<date>_backup_<unix>.json`) and the
`daily_summaries` table. -/
structure FsState where
  active : List (ℕ × LogsDoc)
  archive : List (ArchKey × LogsDoc)
  backup : List ((ℕ × ℕ) × LogsDoc)
  db_summaries : List (ℕ × DBSummaryRow)
  deriving Repr, DecidableEq

/-- Source `create_permanent_backup(date)` at wall-clock second `unix`: if the
archived file exists, copy it into the backup directory under a
timestamped name and upsert its `daily_summary` into the database;
otherwise return with no effect. -/
def create_permanent_backup (date : ℕ) (unix : ℕ) (st : FsState) : FsState :=
  match alookup (ArchKey.dated date) st.archive with
  | none => st
  | some doc =>
    { st with
        backup := aupsert (date, unix) doc st.backup
        db_summaries := save_daily_summary_to_db date doc.daily_summary st.db_summaries }

/-- Source `archive_daily_logs()` run with `datetime.now()` on day `today` (day
number) and `time.time() = unix`, in source order:

1. if yesterday's active ledger file exists, `os.rename` it into the
   archive directory;
2. prune: delete every archive file whose parsed date is more than 30 days
   old (`file_date < now - 30 days`, day granularity); names that fail
   `strptime` are skipped;
3. `create_permanent_backup(yesterday)` — executed *after* the prune,
   despite the source comment "Create permanent backup before cleanup".

The optional cloud upload is best-effort and touches no modelled state. -/
def archive_daily_logs (today : ℕ) (unix : ℕ) (st : FsState) : FsState :=
  let yesterday := today - 1
  let st :=
    match alookup yesterday st.active with
    | none => st
    | some doc =>
      { st with
          active := aerase yesterday st.active
          archive := aupsert (ArchKey.dated yesterday) doc st.archive }
  let st :=
    { st with
        archive := st.archive.filter (fun p =>
          match p.1 with
          | ArchKey.dated d => !(d < today - 30)
          | ArchKey.malformed _ => true) }
  create_permanent_backup yesterday unix st

/-- Source `query_historical_data(start_date, end_date, ticker, limit)`: the SQL
`SELECT * FROM scanner_hits WHERE 1=1 [AND date >= ?] [AND date <= ?]
[AND ticker = ?] ORDER BY timestamp DESC LIMIT ?`.  An absent or empty
filter argument (Python falsy) adds no condition; TEXT comparison is
byte-wise, modelled by the lexicographic order on `String`.  SQL leaves the
order of equal timestamps open; the model picks insertion sort by
descending timestamp. -/
def query_historical_data (db : List DBRow) (start_date end_date ticker : Option String)
    (limit : ℕ) : List DBRow :=
  let rows := db.filter (fun r =>
    (!truthyS start_date || (start_date.getD "" ≤ r.date)) &&
    (!truthyS end_date || (r.date ≤ end_date.getD "")) &&
    (!truthyS ticker || (r.ticker == pyUpper (ticker.getD ""))))
  let sorted := rows.insertionSort (fun a b => b.timestamp ≤ a.timestamp)
  sorted.take limit

/-- The signal-strength scoring rule exactly as the spec words it — base 5,
independent bonuses, clamp to `[1, 10]` — to be compared with the source's
`calculate_signal_strength`. -/
def spec_signal_strength (change_pct rel_volume : ℚ) (breakout news : Bool) : ℤ :=
  min 10 (max 1 (5
    + (if |change_pct| ≥ 15 then 2 else if |change_pct| ≥ 10 then 1 else 0)
    + (if rel_volume ≥ 50 then 2 else if rel_volume ≥ 20 then 1 else 0)
    + (if breakout && news then 1 else 0)))

/-- The Scenario-A trigger event of C3: ticker `ABC`, price 4.50
(`mkRat 9 2`), change 22%, relative volume 60, kind `volume_spike`,
breakout/news flags absent (false). -/
def scenarioA_event : TriggerData :=
  ⟨"volume_spike", some (mkRat 9 2), some 22, none, some 60, false, false, none⟩

/-- A wall clock for the Scenario-A append. -/
def scenarioA_now : Now := ⟨"2025-06-02T10:15:00", "2025-06-02 10:15:00 UTC", 10⟩

/-- The hit list of the day's document after appending Scenario A to an
empty day. -/
def scenarioA_hits : List HitEntry :=
  ((log_scanner_hit scenarioA_now "ABC" scenarioA_event
      ⟨none, []⟩).2.ledger.getD initial_logs).scanner_hits

/-- The sum of the four trigger-type histogram buckets of a summary. -/
def triggerTypesSum (tt : TriggerTypes) : ℕ :=
  tt.minute_breakout + tt.breaking_news + tt.volume_spike + tt.breakout_and_news

/-- Whether a trigger kind is one of the four histogram keys. -/
def knownTrigger (s : String) : Bool :=
  s == "minute_breakout" || s == "breaking_news" || s == "volume_spike"
    || s == "breakout_and_news"

/-- Run a sequence of logging requests through `log_scanner_hit`,
threading the state (a failed append leaves the state as it was). -/
def run_log_requests : List (Now × String × TriggerData) → ScannerState → ScannerState
  | [], st => st
  | e :: rest, st => run_log_requests rest (log_scanner_hit e.1 e.2.1 e.2.2 st).2

/-- The C1 ledger invariant: `total_hits` counts the hit list, and the
trigger histogram sums to the number of hits whose trigger kind is one of
the four histogram keys. -/
def ledgerInvariant (doc : LogsDoc) : Prop :=
  doc.daily_summary.total_hits = doc.scanner_hits.length
  ∧ triggerTypesSum doc.daily_summary.trigger_types
      = (doc.scanner_hits.filter
          (fun h => knownTrigger h.trigger_analysis.primary_trigger)).length

/-- Every hit in the document carries a known trigger kind. -/
def docTriggersKnown (doc : LogsDoc) : Prop :=
  ∀ h ∈ doc.scanner_hits, knownTrigger h.trigger_analysis.primary_trigger = true

/-- An event with an unrecognised trigger kind (`unknown`). -/
def unknown_trigger_event : TriggerData :=
  ⟨"unknown", none, some 1, none, some 1, false, false, none⟩

/-- A wall clock for the C1 appends. -/
def unknown_now : Now := ⟨"2025-06-04T12:00:00", "2025-06-04 12:00:00 UTC", 12⟩

/-- Two appends with known trigger kinds, for the C1 witness. -/
def c1_events : List (Now × String × TriggerData) :=
  [(unknown_now, "XYZ", ⟨"volume_spike", none, some 1, none, some 1, false, false, none⟩),
   (unknown_now, "ABC", ⟨"breaking_news", none, some 1, none, some 1, false, false, none⟩)]

/-- The day's document after the two C1 witness appends. -/
def c1_doc : LogsDoc := (run_log_requests c1_events ⟨none, []⟩).ledger.getD initial_logs

/-- A hit entry whose stored relative volume is negative.  This is
reachable through the public interface: a request with `rel_volume = -4`
is truthy, so `-4` is stored as-is in the record. -/
def negVolHit : HitEntry :=
  { hit_id := 1
    timestamp := "2025-06-02T10:15:00"
    time_readable := "2025-06-02 10:15:00 UTC"
    market_session := "regular_hours"
    stock_data :=
      { ticker := "ABC"
        price := none
        price_change_pct := some 1
        price_category := "unknown"
        volume := none
        relative_volume := some (-4)
        volume_category := "normal_volume"
        momentum_score := none }
    trigger_analysis :=
      { primary_trigger := "volume_spike"
        trigger_description := "10x+ volume explosion without news/breakout"
        breakout_detected := false
        news_detected := false
        signal_strength := 5
        risk_level := "unknown" } }

/-- A zero-valued event: price 0, change 0, relative volume 2. -/
def zeroes_event : TriggerData :=
  ⟨"volume_spike", some 0, some 0, none, some 2, false, false, none⟩

/-- A wall clock for the C10 witness append. -/
def zeroes_now : Now := ⟨"2025-06-03T11:00:00", "2025-06-03 11:00:00 UTC", 11⟩

/-- A filesystem state holding one archived document (day 50) that has no
backup anywhere, long past the 30-day retention horizon of day 100. -/
def c2_state : FsState :=
  { active := []
    archive := [(ArchKey.dated 50, initial_logs)]
    backup := []
    db_summaries := [] }

/-- A request whose ticker is the empty string. -/
def empty_ticker_req : LogHitRequest :=
  ⟨some "", some "volume_spike", some 4, some 22, none, some 60, some true, some false, none⟩

/-- C4. For every trigger event carrying numeric `change_pct` and
`rel_volume`, the computed signal strength is the spec formula: base 5,
plus 2 if `|change_pct| ≥ 15` else plus 1 if `≥ 10`, plus 2 if
`rel_volume ≥ 50` else plus 1 if `≥ 20`, plus 1 if both flags are set,
clamped to `[1, 10]`. -/
theorem c4_signal_strength_formula (td : TriggerData) (c v : ℚ)
    (hc : td.change_pct = some c) (hv : td.rel_volume = some v) :
    calculate_signal_strength td
      = some (spec_signal_strength c v td.breakout_detected td.news_detected) := by
  obtain ⟨tt, p, cp, vol, rv, bd, nd, ms⟩ := td
  obtain rfl : cp = some c := hc
  obtain rfl : rv = some v := hv
  refine congrArg some ?_
  simp only [spec_signal_strength]
  split_ifs <;> decide

/-- Witness for C4: a concrete event with `change_pct = 12`,
`rel_volume = 30` and both flags set scores `5 + 1 + 1 + 1 = 8`. -/
theorem c4_signal_strength_formula_witness :
    calculate_signal_strength ⟨"volume_spike", none, some 12, none, some 30, true, true, none⟩
      = some (spec_signal_strength 12 30 true true)
    ∧ spec_signal_strength 12 30 true true = 8 :=
  ⟨c4_signal_strength_formula _ 12 30 rfl rfl, by decide⟩

/-- Counterexample for C3: the Scenario-A append stores signal strength
`5 + 2 + 2 = 9`, not the 10 the claim asserts. -/
theorem c3_scenarioA_counterexample :
    scenarioA_hits.map (fun h => h.trigger_analysis.signal_strength) = [9]
    ∧ (9 : ℤ) ≠ 10 := by
  exact ⟨by decide, by decide⟩

/-- C3 (amended). The Scenario-A append succeeds and classifies the hit
as `penny_stock` / `extreme_spike` / `very_high` with signal strength 9
(not 10). -/
theorem c3_scenarioA_classification :
    (log_scanner_hit scenarioA_now "ABC" scenarioA_event ⟨none, []⟩).1 = true
    ∧ scenarioA_hits.map (fun h =>
        (h.stock_data.price_category, h.stock_data.volume_category,
         h.trigger_analysis.risk_level, h.trigger_analysis.signal_strength))
      = [("penny_stock", "extreme_spike", "very_high", 9)] := by
  exact ⟨by decide, by decide⟩

/-- C6. `categorize_price` and `categorize_volume_spike` are pure
functions (equal inputs give equal outputs); `categorize_price` follows the
`<5 / <10 / <15 / else` boundary rule on every nonzero price, returns
`unknown` on an absent price, and every boundary value (price 5, 10, 15;
relative volume 5, 10, 20, 50) falls into the documented higher bucket. -/
theorem c6_classifier_pure_boundaries :
    (∀ p q : Option ℚ, p = q →
        categorize_price p = categorize_price q ∧
        categorize_volume_spike p = categorize_volume_spike q)
  ∧ categorize_price none = "unknown"
  ∧ (∀ p : ℚ, p ≠ 0 →
      categorize_price (some p) =
        (if p < 5 then "penny_stock"
         else if p < 10 then "low_priced"
         else if p < 15 then "mid_priced"
         else "higher_priced"))
  ∧ categorize_price (some 5) = "low_priced"
  ∧ categorize_price (some 10) = "mid_priced"
  ∧ categorize_price (some 15) = "higher_priced"
  ∧ categorize_volume_spike (some 5) = "moderate_spike"
  ∧ categorize_volume_spike (some 10) = "high_spike"
  ∧ categorize_volume_spike (some 20) = "massive_spike"
  ∧ categorize_volume_spike (some 50) = "extreme_spike" := by
  refine ⟨fun p q h => by rw [h]; exact ⟨rfl, rfl⟩, rfl, ?_,
    by decide, by decide, by decide, by decide, by decide, by decide, by decide⟩
  intro p hp
  simp [categorize_price, truthyQ, hp]

/-- Witness for C6: the boundary rule applied at the concrete nonzero
price 7. -/
theorem c6_classifier_pure_boundaries_witness :
    (7 : ℚ) ≠ 0 ∧ categorize_price (some 7) =
      (if (7 : ℚ) < 5 then "penny_stock"
       else if (7 : ℚ) < 10 then "low_priced"
       else if (7 : ℚ) < 15 then "mid_priced"
       else "higher_priced") :=
  ⟨by decide, c6_classifier_pure_boundaries.2.2.1 7 (by decide)⟩

/-- C7. For every store state and every combination of optional
filters, the historical query returns at most `limit` rows, ordered by
timestamp descending (newest first). -/
theorem c7_query_limit_ordered (db : List DBRow)
    (start_date end_date ticker : Option String) (limit : ℕ) :
    (query_historical_data db start_date end_date ticker limit).length ≤ limit
    ∧ List.Sorted (fun a b : DBRow => b.timestamp ≤ a.timestamp)
        (query_historical_data db start_date end_date ticker limit) := by
  unfold query_historical_data
  haveI : IsTotal DBRow (fun a b => b.timestamp ≤ a.timestamp) :=
    ⟨fun a b => le_total b.timestamp a.timestamp⟩
  haveI : IsTrans DBRow (fun a b => b.timestamp ≤ a.timestamp) :=
    ⟨fun _ _ _ hab hbc => le_trans hbc hab⟩
  exact ⟨List.length_take_le _ _,
    (List.sorted_insertionSort _ _).sublist (List.take_sublist _ _)⟩

/-- C5 (amended). For every append whose stored `price_change_pct` and
`relative_volume` are present, the performance metrics become:
`avg_change_pct := (old + |change|)/2`, `max_change_pct := max(old, |change|)`,
but the volume metrics use the raw stored value with **no absolute value**:
`avg_volume_spike := (old + rel)/2`, `max_volume_spike := max(old, rel)`. -/
theorem c5_running_blend (logs : LogsDoc) (hit : HitEntry) (c v : ℚ)
    (hc : hit.stock_data.price_change_pct = some c)
    (hv : hit.stock_data.relative_volume = some v) :
    (update_daily_summary logs hit).daily_summary.performance_metrics =
      { avg_change_pct :=
          (logs.daily_summary.performance_metrics.avg_change_pct + |c|) / 2
        max_change_pct :=
          max logs.daily_summary.performance_metrics.max_change_pct |c|
        avg_volume_spike :=
          (logs.daily_summary.performance_metrics.avg_volume_spike + v) / 2
        max_volume_spike :=
          max logs.daily_summary.performance_metrics.max_volume_spike v } := by
  simp only [update_daily_summary, hc, hv]
  split_ifs <;> rfl

/-- Witness for C5's amended statement at a concrete input. -/
theorem c5_running_blend_witness :
    (update_daily_summary initial_logs negVolHit).daily_summary.performance_metrics =
      { avg_change_pct := (0 + |(1 : ℚ)|) / 2
        max_change_pct := max 0 |(1 : ℚ)|
        avg_volume_spike := (0 + (-4 : ℚ)) / 2
        max_volume_spike := max 0 (-4 : ℚ) } :=
  c5_running_blend initial_logs negVolHit 1 (-4) rfl rfl

/-- Counterexample for C5: with a stored relative volume of `-4` on a
zeroed summary, the code sets `avg_volume_spike = (0 + (-4))/2 = -2`,
whereas the claim's `(old + |relative_volume|)/2` would be `2`. -/
theorem c5_running_blend_counterexample :
    (update_daily_summary initial_logs negVolHit).daily_summary.performance_metrics.avg_volume_spike
      ≠ (initial_logs.daily_summary.performance_metrics.avg_volume_spike
          + |(-4 : ℚ)|) / 2 := by
  norm_num [update_daily_summary, initial_logs, negVolHit]

/-- Source `update_daily_summary` never touches the hit list itself. -/
theorem update_daily_summary_scanner_hits (logs : LogsDoc) (hit : HitEntry) :
    (update_daily_summary logs hit).scanner_hits = logs.scanner_hits := rfl

/-- Appending a hit whose stored change percentage is absent leaves both
change-percentage metrics untouched. -/
theorem update_daily_summary_change_metrics_skip (logs : LogsDoc) (hit : HitEntry)
    (h : hit.stock_data.price_change_pct = none) :
    (update_daily_summary logs hit).daily_summary.performance_metrics.avg_change_pct
        = logs.daily_summary.performance_metrics.avg_change_pct
    ∧ (update_daily_summary logs hit).daily_summary.performance_metrics.max_change_pct
        = logs.daily_summary.performance_metrics.max_change_pct := by
  rcases hrv : hit.stock_data.relative_volume with _ | v <;>
    simp only [update_daily_summary, h, hrv] <;> split_ifs <;> exact ⟨rfl, rfl⟩

/-- C10. Zero numeric values are treated as absent at the public
logging interface.  For every successfully appended event (success is
exactly a computed signal strength): if the event's price is 0, the
appended record stores price `null` with `price_category` and `risk_level`
`unknown`; if the event's `change_pct` is 0, the record stores
`price_change_pct` as `null` and the append leaves `avg_change_pct` and
`max_change_pct` unchanged. -/
theorem c10_zero_treated_absent (now : Now) (ticker : String) (td : TriggerData)
    (st : ScannerState) (sig : ℤ) (hsig : calculate_signal_strength td = some sig) :
    (td.price = some 0 →
      ∃ hitE, ((log_scanner_hit now ticker td st).2.ledger.getD
          initial_logs).scanner_hits.getLast? = some hitE
        ∧ hitE.stock_data.price = none
        ∧ hitE.stock_data.price_category = "unknown"
        ∧ hitE.trigger_analysis.risk_level = "unknown")
  ∧ (td.change_pct = some 0 →
      (∃ hitE, ((log_scanner_hit now ticker td st).2.ledger.getD
          initial_logs).scanner_hits.getLast? = some hitE
        ∧ hitE.stock_data.price_change_pct = none)
      ∧ ((log_scanner_hit now ticker td st).2.ledger.getD
            initial_logs).daily_summary.performance_metrics.avg_change_pct
          = (st.ledger.getD initial_logs).daily_summary.performance_metrics.avg_change_pct
      ∧ ((log_scanner_hit now ticker td st).2.ledger.getD
            initial_logs).daily_summary.performance_metrics.max_change_pct
          = (st.ledger.getD initial_logs).daily_summary.performance_metrics.max_change_pct) := by
  constructor
  · intro hp
    simp only [log_scanner_hit, hsig, Option.getD_some]
    rw [update_daily_summary_scanner_hits]
    refine ⟨_, List.getLast?_concat _, ?_, ?_, ?_⟩
    · simp [hp, truthyQ]
    · simp [hp, categorize_price, truthyQ]
    · simp [hp, assess_risk_level, truthyQ]
  · intro hc
    simp only [log_scanner_hit, hsig, Option.getD_some]
    constructor
    · rw [update_daily_summary_scanner_hits]
      exact ⟨_, List.getLast?_concat _, by simp [hc, truthyQ]⟩
    · exact update_daily_summary_change_metrics_skip _ _ (by simp [hc, truthyQ])

/-- Witness for C10: the zero-valued event appends a record with null
price/change, `unknown` category and risk, and untouched change metrics. -/
theorem c10_zero_treated_absent_witness :
    (∃ hitE, ((log_scanner_hit zeroes_now "abc" zeroes_event ⟨none, []⟩).2.ledger.getD
        initial_logs).scanner_hits.getLast? = some hitE
      ∧ hitE.stock_data.price = none
      ∧ hitE.stock_data.price_category = "unknown"
      ∧ hitE.trigger_analysis.risk_level = "unknown")
  ∧ ((log_scanner_hit zeroes_now "abc" zeroes_event ⟨none, []⟩).2.ledger.getD
        initial_logs).daily_summary.performance_metrics.avg_change_pct
      = ((⟨none, []⟩ : ScannerState).ledger.getD
          initial_logs).daily_summary.performance_metrics.avg_change_pct :=
  ⟨(c10_zero_treated_absent zeroes_now "abc" zeroes_event ⟨none, []⟩ 5 (by decide)).1 rfl,
   ((c10_zero_treated_absent zeroes_now "abc" zeroes_event ⟨none, []⟩ 5 (by decide)).2 rfl).2.1⟩

/-- C2 (code bug). Rollover on day 100 deletes the day-50 archive even
though no backup of it exists — and no backup of it exists afterwards
either.  The prune loop is unconditional, runs *before*
`create_permanent_backup` (despite the source comment "Create permanent
backup before cleanup"), and the backup call only ever covers yesterday's
file. -/
theorem c2_prune_without_backup :
    alookup (ArchKey.dated 50) c2_state.archive = some initial_logs
    ∧ c2_state.backup = []
    ∧ alookup (ArchKey.dated 50) (archive_daily_logs 100 777 c2_state).archive = none
    ∧ (archive_daily_logs 100 777 c2_state).backup = [] := by decide

/-- C8 (amended). Re-running rollover for a date whose archive and
backup already exist does not corrupt prior state: the archive still holds
exactly one document for the date with unchanged contents, the active
ledger stays empty, and the summary row is idempotently re-upserted — but
the second run creates an *additional* timestamped backup copy of the same
document whenever its wall-clock second differs, so the backup store then
holds two copies for the date, not one. -/
theorem c8_rollover_second_run (doc : LogsDoc) (today u1 u2 : ℕ) :
    (archive_daily_logs today u1 ⟨[(today - 1, doc)], [], [], []⟩).archive
        = [(ArchKey.dated (today - 1), doc)]
    ∧ (archive_daily_logs today u2 (archive_daily_logs today u1
          ⟨[(today - 1, doc)], [], [], []⟩)).archive
        = [(ArchKey.dated (today - 1), doc)]
    ∧ (archive_daily_logs today u2 (archive_daily_logs today u1
          ⟨[(today - 1, doc)], [], [], []⟩)).active = []
    ∧ (archive_daily_logs today u1 ⟨[(today - 1, doc)], [], [], []⟩).backup
        = [((today - 1, u1), doc)]
    ∧ (u1 ≠ u2 →
        (archive_daily_logs today u2 (archive_daily_logs today u1
            ⟨[(today - 1, doc)], [], [], []⟩)).backup
          = [((today - 1, u1), doc), ((today - 1, u2), doc)])
    ∧ (archive_daily_logs today u2 (archive_daily_logs today u1
          ⟨[(today - 1, doc)], [], [], []⟩)).db_summaries
        = (archive_daily_logs today u1 ⟨[(today - 1, doc)], [], [], []⟩).db_summaries := by
  have hy : ¬ (today - 1 < today - 30) := by omega
  have h1 : archive_daily_logs today u1 ⟨[(today - 1, doc)], [], [], []⟩
      = ⟨[], [(ArchKey.dated (today - 1), doc)], [((today - 1, u1), doc)],
         [(today - 1, summary_row doc.daily_summary)]⟩ := by
    simp [archive_daily_logs, create_permanent_backup, save_daily_summary_to_db,
      alookup, aupsert, aerase, hy]
  rw [h1]
  refine ⟨rfl, ?_, ?_, rfl, fun hu => ?_, ?_⟩ <;>
    simp [archive_daily_logs, create_permanent_backup, save_daily_summary_to_db,
      alookup, aupsert, aerase, hy]
  simp [List.filter_cons, Prod.mk.injEq, hu]

/-- Counterexample for C8: after running rollover twice (at distinct
wall-clock seconds) for the same date, the backup store holds two backup
files for that date, not the single backup set the claim asserts. -/
theorem c8_two_backup_files :
    ((archive_daily_logs 100 2 (archive_daily_logs 100 1
        ⟨[(99, initial_logs)], [], [], []⟩)).backup.filter
      (fun e => e.1.1 == 99)).length = 2 ∧ (2 : ℕ) ≠ 1 := by decide

/-- Witness for C8's amended statement at concrete values. -/
theorem c8_rollover_second_run_witness :
    (1 : ℕ) ≠ 2
    ∧ (archive_daily_logs 100 2 (archive_daily_logs 100 1
          ⟨[(99, initial_logs)], [], [], []⟩)).archive
        = [(ArchKey.dated 99, initial_logs)]
    ∧ (archive_daily_logs 100 2 (archive_daily_logs 100 1
          ⟨[(99, initial_logs)], [], [], []⟩)).backup
        = [((99, 1), initial_logs), ((99, 2), initial_logs)] :=
  ⟨by decide,
   (c8_rollover_second_run initial_logs 100 1 2).2.1,
   (c8_rollover_second_run initial_logs 100 1 2).2.2.2.2.1 (by decide)⟩

/-- C9. A logging request with a missing body or an empty/missing
ticker is rejected with HTTP 400 before any write: the ledger document and
the database rows are exactly those of the pre-call state. -/
theorem c9_validation_rejects_before_write (req : Option LogHitRequest) (now : Now)
    (st : ScannerState)
    (h : req = none ∨ ∃ d, req = some d ∧ truthyS d.ticker = false) :
    log_hit req now st = (400, st) := by
  rcases h with h | ⟨d, rfl, hd⟩
  · subst h; rfl
  · simp [log_hit, hd]

/-- Witness for C9: the empty-ticker request is rejected with 400 and the
state is unchanged. -/
theorem c9_validation_rejects_before_write_witness :
    log_hit (some empty_ticker_req) ⟨"2025-06-02T10:15:00", "r", 10⟩ ⟨none, []⟩
      = (400, ⟨none, []⟩) :=
  c9_validation_rejects_before_write _ _ _ (Or.inr ⟨empty_ticker_req, rfl, by decide⟩)

/-- Appending a hit always increments `total_hits` by exactly one. -/
theorem update_daily_summary_total_hits (logs : LogsDoc) (hit : HitEntry) :
    (update_daily_summary logs hit).daily_summary.total_hits
      = logs.daily_summary.total_hits + 1 := by
  simp only [update_daily_summary]
  split_ifs <;> rfl

/-- Appending a hit increments the histogram sum by one exactly when the
hit's trigger kind is one of the four histogram keys. -/
theorem update_daily_summary_trigger_sum (logs : LogsDoc) (hit : HitEntry) :
    triggerTypesSum (update_daily_summary logs hit).daily_summary.trigger_types
      = triggerTypesSum logs.daily_summary.trigger_types
        + (if knownTrigger hit.trigger_analysis.primary_trigger then 1 else 0) := by
  simp only [update_daily_summary, triggerTypesSum, knownTrigger]
  split_ifs <;> simp_all <;> omega

/-- One append through `log_scanner_hit` preserves the ledger invariant
(also on failure, where the state is unchanged). -/
theorem log_scanner_hit_preserves_invariant (now : Now) (ticker : String)
    (td : TriggerData) (st : ScannerState)
    (hinv : ledgerInvariant (st.ledger.getD initial_logs)) :
    ledgerInvariant ((log_scanner_hit now ticker td st).2.ledger.getD initial_logs) := by
  rcases hsig : calculate_signal_strength td with _ | sig
  · simpa only [log_scanner_hit, hsig] using hinv
  · simp only [log_scanner_hit, hsig, Option.getD_some]
    constructor
    · rw [update_daily_summary_total_hits, update_daily_summary_scanner_hits]
      simp [List.length_append, hinv.1]
    · rw [update_daily_summary_trigger_sum, update_daily_summary_scanner_hits]
      simp [List.filter_append, List.filter_cons, List.filter_nil, List.length_append,
        hinv.2, apply_ite List.length]

/-- Running any sequence of requests preserves the ledger invariant. -/
theorem run_log_requests_invariant (events : List (Now × String × TriggerData))
    (st : ScannerState) (hinv : ledgerInvariant (st.ledger.getD initial_logs)) :
    ledgerInvariant ((run_log_requests events st).ledger.getD initial_logs) := by
  induction events generalizing st with
  | nil => exact hinv
  | cons e rest ih =>
      exact ih _ (log_scanner_hit_preserves_invariant _ _ _ _ hinv)

/-- One append with a known trigger kind keeps every stored trigger kind
known. -/
theorem log_scanner_hit_preserves_known (now : Now) (ticker : String)
    (td : TriggerData) (st : ScannerState)
    (hk : knownTrigger td.trigger_type = true)
    (hdoc : docTriggersKnown (st.ledger.getD initial_logs)) :
    docTriggersKnown ((log_scanner_hit now ticker td st).2.ledger.getD initial_logs) := by
  rcases hsig : calculate_signal_strength td with _ | sig
  · simpa only [log_scanner_hit, hsig] using hdoc
  · simp only [log_scanner_hit, hsig, Option.getD_some]
    intro h hmem
    rw [update_daily_summary_scanner_hits] at hmem
    rcases List.mem_append.mp hmem with hmem | hmem
    · exact hdoc h hmem
    · rcases List.mem_singleton.mp hmem with rfl
      exact hk

/-- Running requests whose trigger kinds are all known keeps every stored
trigger kind known. -/
theorem run_log_requests_known (events : List (Now × String × TriggerData))
    (st : ScannerState)
    (hke : ∀ e ∈ events, knownTrigger e.2.2.trigger_type = true)
    (hdoc : docTriggersKnown (st.ledger.getD initial_logs)) :
    docTriggersKnown ((run_log_requests events st).ledger.getD initial_logs) := by
  induction events generalizing st with
  | nil => exact hdoc
  | cons e rest ih =>
      exact ih _ (fun x hx => hke x (List.mem_cons_of_mem _ hx))
        (log_scanner_hit_preserves_known _ _ _ _ (hke e (List.mem_cons_self _ _)) hdoc)

/-- C1 (amended). After every sequence of appends to a day's ledger,
`total_hits` equals the number of hit records; it moreover equals the sum
of the trigger-type histogram provided every appended event carries one of
the four known trigger kinds.  (An event with any other `trigger_kind`,
e.g. `unknown`, counts in `total_hits` and the hit list but in no
histogram bucket.) -/
theorem c1_summary_invariant (events : List (Now × String × TriggerData))
    (doc : LogsDoc)
    (h : (run_log_requests events ⟨none, []⟩).ledger = some doc) :
    doc.daily_summary.total_hits = doc.scanner_hits.length
    ∧ ((∀ e ∈ events, knownTrigger e.2.2.trigger_type = true) →
        triggerTypesSum doc.daily_summary.trigger_types
          = doc.daily_summary.total_hits) := by
  have hinv := run_log_requests_invariant events ⟨none, []⟩ ⟨rfl, rfl⟩
  have hdoc : (run_log_requests events ⟨none, []⟩).ledger.getD initial_logs = doc := by
    rw [h]; rfl
  rw [hdoc] at hinv
  refine ⟨hinv.1, fun hke => ?_⟩
  have hkn := run_log_requests_known events ⟨none, []⟩ hke (fun a ha => absurd ha (List.not_mem_nil a))
  rw [hdoc] at hkn
  calc triggerTypesSum doc.daily_summary.trigger_types
      = (doc.scanner_hits.filter
          (fun h => knownTrigger h.trigger_analysis.primary_trigger)).length := hinv.2
    _ = doc.scanner_hits.length := by rw [List.filter_eq_self.mpr hkn]
    _ = doc.daily_summary.total_hits := hinv.1.symm

/-- Witness for C1's amended statement: after the two known-trigger
appends, `total_hits = 2 =` hit-list length `=` histogram sum. -/
theorem c1_summary_invariant_witness :
    c1_doc.daily_summary.total_hits = c1_doc.scanner_hits.length
    ∧ triggerTypesSum c1_doc.daily_summary.trigger_types
        = c1_doc.daily_summary.total_hits :=
  ⟨(c1_summary_invariant c1_events c1_doc rfl).1,
   (c1_summary_invariant c1_events c1_doc rfl).2 (by decide)⟩

/-- Counterexample for C1: one append with `trigger_kind = "unknown"`
yields `total_hits = 1` (the hit-list length) but a histogram summing to
`0` — the invariant fails for the `unknown` kind the claim includes. -/
theorem c1_unknown_trigger_counterexample :
    ((log_scanner_hit unknown_now "T" unknown_trigger_event
        ⟨none, []⟩).2.ledger.getD initial_logs).daily_summary.total_hits = 1
    ∧ ((log_scanner_hit unknown_now "T" unknown_trigger_event
        ⟨none, []⟩).2.ledger.getD initial_logs).scanner_hits.length = 1
    ∧ triggerTypesSum ((log_scanner_hit unknown_now "T" unknown_trigger_event
        ⟨none, []⟩).2.ledger.getD initial_logs).daily_summary.trigger_types = 0
    ∧ (0 : ℕ) ≠ 1 := by
  exact ⟨rfl, rfl, rfl, by decide⟩
